import Mathlib

/-!
Shallow embedding of the snake-arena server (`server.py`, `game_protocol.py`).

Conventions of the embedding:
* Python tuples `(x, y)` for grid cells become `Pos := Int × Int` (coordinates
  may be negative during the bounds check in `Snake.move`).
* Python dicts that are keyed by player / room id become association lists
  `List (key × value)` in insertion order; `dict` iteration order is the list
  order, matching CPython's insertion-ordered dicts.
* Calls to `random.randint` / `random.choice` are modelled by an explicit
  oracle: a stream `List Pos` of pre-drawn cells for positions (consumed left
  to right, with an arbitrary default when exhausted) and a `Nat` index for
  `random.choice` over a list.
* Sockets, locks, timestamps and colors carry no game logic used by any
  property below and are omitted from the records; broadcasts are modelled by
  returning the payload that would be sent instead of performing I/O.
* `pickle.dumps` / `pickle.loads` are modelled by an abstract decoder
  `List Nat → Option Dict` (byte list to optional decoded dict), exactly the
  shape of `GameProtocol.deserialize_message`, which returns `None` on failure.
-/

namespace SnakeSrv

/-! ## Wire protocol: `GameProtocol.receive_message` (game_protocol.py 88-127) -/

/-- A decoded envelope: Python-side it is a dict; for loop control only the
key/value strings matter (`message.get('type')`, truthiness = non-emptiness). -/
abbrev Dict := List (String × String)

/-- One call to `sock.recv`: it either raises an exception (e.g.
`socket.timeout`) or returns a byte string; an empty byte string means the
peer closed the connection. -/
inductive RecvCall where
  | raiseExc
  | ret (bs : List Nat)
deriving DecidableEq, Repr

/-- The `struct.unpack('!I', length_data)`: requires exactly 4 bytes, big endian;
any other length raises `struct.error`, which the surrounding `except` in
`receive_message` turns into `None`. -/
def u32be : List Nat → Option Nat
  | [a, b, c, d] => some (((a * 256 + b) * 256 + c) * 256 + d)
  | _ => none

/-- The `while len(data) < length` body-read loop of `receive_message`:
each successful `recv` chunk is appended; an empty chunk (peer closed before
the declared length arrived) makes the whole receive return `None`; running
out of modelled reads corresponds to `recv` blocking until an exception,
also `None`. -/
def read_body : List RecvCall → List Nat → Nat → Option (List Nat)
  | reads, acc, need =>
    if acc.length ≥ need then some acc
    else
      match reads with
      | [] => none
      | .raiseExc :: _ => none
      | .ret chunk :: rest =>
        if chunk = [] then none
        else read_body rest (acc ++ chunk) need

/-- The `GameProtocol.receive_message`: reads a 4-byte big-endian length prefix and
then the body, then deserializes.  `decode` stands for
`GameProtocol.deserialize_message` (returns `none` on unpickling failure).
Every failure path of the source — exception during a read (timeouts
included), peer close, undersized length prefix, length above the 10 MiB
ceiling, zero length, short body, failed decode — returns `none`; only a
complete well-formed frame returns `some` envelope. -/
def receive_message (decode : List Nat → Option Dict) : List RecvCall → Option Dict
  | [] => none
  | .raiseExc :: _ => none
  | .ret lenBytes :: rest =>
    if lenBytes = [] then none
    else
      match u32be lenBytes with
      | none => none
      | some len =>
        if len > 10 * 1024 * 1024 then none
        else if len = 0 then none
        else
          match read_body rest [] len with
          | none => none
          | some data => decode data

/-! ## Snake entity (server.py 30-120, class `Snake`) -/

/-- A grid cell; Python `(x, y)` int pair. -/
abbrev Pos := Int × Int

/-- Headings; the source keeps them as the strings "UP"/"DOWN"/"LEFT"/"RIGHT"
and every write site validates against that closed set. -/
inductive Dir where
  | UP | DOWN | LEFT | RIGHT
deriving DecidableEq, Repr

/-- The `opposite` dict in `Snake.set_direction`. -/
def Dir.opposite : Dir → Dir
  | .UP => .DOWN
  | .DOWN => .UP
  | .LEFT => .RIGHT
  | .RIGHT => .LEFT

/-- The `deltas` dict in `Snake.move`. -/
def Dir.delta : Dir → Int × Int
  | .UP => (0, -1)
  | .DOWN => (0, 1)
  | .LEFT => (-1, 0)
  | .RIGHT => (1, 0)

/-- Parser for the client-supplied direction string; `none` corresponds to a
string outside `["UP", "DOWN", "LEFT", "RIGHT"]` (rejected by
`GameState.update_player_direction`). -/
def Dir.ofString : String → Option Dir
  | "UP" => some .UP
  | "DOWN" => some .DOWN
  | "LEFT" => some .LEFT
  | "RIGHT" => some .RIGHT
  | _ => none

/-- The `Snake.__init__`: body `[start_pos]`, direction RIGHT, alive, score 0,
`prev_head = start_pos`.  The random `color` and `last_move_time` fields carry
no game logic and are omitted. -/
structure Snake where
  player_id : String
  body : List Pos
  direction : Dir
  next_direction : Dir
  alive : Bool
  score : Nat
  prev_head : Pos
deriving DecidableEq, Repr

instance : Inhabited Snake :=
  ⟨{ player_id := "", body := [(0, 0)], direction := .RIGHT,
     next_direction := .RIGHT, alive := true, score := 0, prev_head := (0, 0) }⟩

/-- The `Snake(player_id, start_pos)`. -/
def Snake.init (player_id : String) (start_pos : Pos) : Snake :=
  { player_id := player_id, body := [start_pos], direction := .RIGHT,
    next_direction := .RIGHT, alive := true, score := 0, prev_head := start_pos }

/-- The snake's current head, `self.body[0]`.  A Python `body[0]` on an empty
body would raise; bodies are never empty in any reachable state, the default
cell is only there to keep the function total. -/
def Snake.head (s : Snake) : Pos := s.body.headD (0, 0)

/-- The cell the next `move` will step onto: the current head displaced by
the pending heading's unit delta (the `new_head` local of `Snake.move`). -/
def Snake.new_head (s : Snake) : Pos :=
  (s.head.1 + s.next_direction.delta.1, s.head.2 + s.next_direction.delta.2)

/-- The `Snake.set_direction`: refuse the exact reverse of the current heading. -/
def Snake.set_direction (s : Snake) (new_direction : Dir) : Snake :=
  if new_direction ≠ s.direction.opposite then
    { s with next_direction := new_direction }
  else s

/-- The `Snake.move(grid_size, food_positions)`: returns the updated snake and the
`ate_food` flag.  Follows the source line by line: dead snakes do not move;
`prev_head` and `direction` are committed before the validity checks, so a
snake that dies on this move still records them; an out-of-bounds or
self-colliding new head clears `alive` and leaves the body untouched;
otherwise the head is prepended and, unless food was hit, the tail is popped
(the `len > 1` guard of the source is kept verbatim). -/
def Snake.move (s : Snake) (grid_size : Int × Int) (food_positions : List Pos) :
    Snake × Bool :=
  if ¬s.alive then (s, false)
  else
    let prev := s.head
    let dir := s.next_direction
    let d := dir.delta
    let new_head : Pos := (prev.1 + d.1, prev.2 + d.2)
    let s1 := { s with prev_head := prev, direction := dir }
    if new_head.1 < 0 ∨ new_head.1 ≥ grid_size.1 ∨
        new_head.2 < 0 ∨ new_head.2 ≥ grid_size.2 then
      ({ s1 with alive := false }, false)
    else if new_head ∈ s1.body then
      ({ s1 with alive := false }, false)
    else
      let body1 := new_head :: s1.body
      if new_head ∈ food_positions then
        ({ s1 with body := body1, score := s1.score + 10 }, true)
      else
        ({ s1 with body := if body1.length > 1 then body1.dropLast else body1 },
         false)

/-- The `Snake.check_collision_with_other`: may clear the `alive` flag of either
snake, never touches bodies.  Returns `(self', other', collided)`.  The
`hasattr` guards of the source are always true (`prev_head` is set in
`__init__`), so the head-swap branch is unconditional here. -/
def Snake.check_collision_with_other (s other_snake : Snake) :
    Snake × Snake × Bool :=
  if ¬s.alive ∨ ¬other_snake.alive then (s, other_snake, false)
  else
    let our_head := s.head
    let their_head := other_snake.head
    if our_head = their_head then
      ({ s with alive := false }, { other_snake with alive := false }, true)
    else if s.prev_head = their_head ∧ other_snake.prev_head = our_head then
      ({ s with alive := false }, { other_snake with alive := false }, true)
    else if our_head ∈ other_snake.body then
      ({ s with alive := false }, other_snake, true)
    else (s, other_snake, false)

/-! ## GameState (server.py 123-211) -/

/-- Draw the next pre-sampled cell from the randomness oracle; one draw stands
for one `(random.randint(..), random.randint(..))` pair of the source. -/
def draw (rng : List Pos) : Pos × List Pos := (rng.headD (0, 0), rng.tail)

/-- Index pairs `(i, j)` with `i < j < n`, in the order produced by
`for i in range(n): for j in range(i + 1, n)` of `update_movement`
(filtering `range n` by `i < j` enumerates exactly `range(i + 1, n)` in
order). -/
def all_pairs (n : Nat) : List (Nat × Nat) :=
  ((List.range n).map
    (fun i => ((List.range n).filter (fun j => i < j)).map (fun j => (i, j)))).flatten

/-- One call `snake_list[a].check_collision_with_other(snake_list[b])` of the
inner collision loop, with the in-place mutation of both snake objects
written back into the list. -/
def collision_half_step (l : List Snake) (a b : Nat) : List Snake :=
  (l.set a ((l.getD a default).check_collision_with_other (l.getD b default)).1).set b
    ((l.getD a default).check_collision_with_other (l.getD b default)).2.1

/-- One iteration of the inner collision loop of `update_movement`:
`snake_list[i].check_collision_with_other(snake_list[j])` followed by
`snake_list[j].check_collision_with_other(snake_list[i])`. -/
def collision_pair_step (l : List Snake) (i j : Nat) : List Snake :=
  collision_half_step (collision_half_step l i j) j i

/-- The full pairwise collision-resolution pass of `update_movement`
(server.py 198-202) over `snake_list = list(self.snakes.values())`. -/
def collision_pass (l : List Snake) : List Snake :=
  (all_pairs l.length).foldl (fun acc p => collision_pair_step acc p.1 p.2) l

/-- Ids of the snakes left alive, in list order. -/
def alive_ids (l : List Snake) : List String :=
  (l.filter (fun s => s.alive)).map (fun s => s.player_id)

/-- The `while attempts < 50` rejection-sampling loop inside
`GameState._generate_food`: draw a cell, accept it if it is on no snake body
and not already food, else retry; give up (skip the slot) after the attempt
budget is exhausted. -/
def food_attempts (snakes : List (String × Snake)) (food : List Pos) :
    Nat → List Pos → List Pos × List Pos
  | 0, rng => (food, rng)
  | fuel + 1, rng =>
    let (pos, rng') := draw rng
    let collision := snakes.any (fun x => pos ∈ x.2.body)
    if ¬collision ∧ pos ∉ food then (food ++ [pos], rng')
    else food_attempts snakes food fuel rng'

/-- The `GameState._generate_food(count)`: one 50-attempt sampling loop per slot. -/
def generate_food (snakes : List (String × Snake)) (food : List Pos) :
    Nat → List Pos → List Pos × List Pos
  | 0, rng => (food, rng)
  | count + 1, rng =>
    let fr := food_attempts snakes food 50 rng
    generate_food snakes fr.1 count fr.2

/-- The `GameState` (server.py 123-129): grid, player-id-keyed snake dict (as an
insertion-ordered association list), food cells, activity flag.  The
`threading.Lock` is a concurrency artifact with no state content. -/
structure GameState where
  grid_size : Int × Int
  snakes : List (String × Snake)
  food_positions : List Pos
  game_active : Bool
deriving DecidableEq, Repr

/-- The `GameState.__init__(grid_size)`: empty snake dict, inactive, five food
slots sampled up front. -/
def GameState.init (grid_size : Int × Int) (rng : List Pos) :
    GameState × List Pos :=
  let fr := generate_food [] [] 5 rng
  ({ grid_size := grid_size, snakes := [], food_positions := fr.1,
     game_active := false }, fr.2)

/-- The 100-attempt free-cell search of `GameState.add_player`; the oracle
draw stands for the `randint(3, w - 4), randint(3, h - 4)` pair. -/
def place_attempts (snakes : List (String × Snake)) :
    Nat → List Pos → Option Pos × List Pos
  | 0, rng => (none, rng)
  | fuel + 1, rng =>
    let (p, rng') := draw rng
    if snakes.all (fun x => p ∉ x.2.body) then (some p, rng')
    else place_attempts snakes fuel rng'

/-- The `GameState.add_player` (server.py 148-165): idempotent on an existing id;
otherwise places a fresh `Snake` on a free cell found by rejection sampling,
with one unconditional fallback draw after 100 failures.  Always returns
`true`, exactly as every path of the source does.  The `username` argument is
accepted and ignored, as in the source. -/
def GameState.add_player (gs : GameState) (player_id _username : String)
    (rng : List Pos) : (GameState × Bool) × List Pos :=
  if (gs.snakes.lookup player_id).isSome then ((gs, true), rng)
  else
    match place_attempts gs.snakes 100 rng with
    | (some p, rng') =>
      (({ gs with
           snakes := gs.snakes ++ [(player_id, Snake.init player_id p)] },
        true), rng')
    | (none, rng') =>
      let (p, rng'') := draw rng'
      (({ gs with
           snakes := gs.snakes ++ [(player_id, Snake.init player_id p)] },
        true), rng'')

/-- The `GameState.remove_player` (server.py 167-170): delete the snake if
present; silently do nothing otherwise. -/
def GameState.remove_player (gs : GameState) (player_id : String) : GameState :=
  { gs with snakes := gs.snakes.filter (fun x => x.1 ≠ player_id) }

/-- The `GameState.update_player_direction` (server.py 172-178): only for a known
player while the game is active, and only for one of the four direction
strings; applies `Snake.set_direction` (so the heading takes effect at the
next `move`). -/
def GameState.update_player_direction (gs : GameState)
    (player_id direction : String) : GameState × Bool :=
  if (gs.snakes.lookup player_id).isSome ∧ gs.game_active then
    match Dir.ofString direction with
    | some d =>
      ({ gs with
          snakes := gs.snakes.map
            (fun x => if x.1 = player_id then (x.1, x.2.set_direction d) else x) },
       true)
    | none => (gs, false)
  else (gs, false)

/-- The `GameState.update_movement` (server.py 180-202): freeze the food set, move
every snake against it, then for each eater remove the food cell (first
eater wins when two heads land on the same cell) and respawn one slot, then
run the pairwise collision pass over the snake values in dict order. -/
def GameState.update_movement (gs : GameState) (rng : List Pos) :
    GameState × List Pos :=
  if ¬gs.game_active then (gs, rng)
  else
    let food_set := gs.food_positions
    let moved := gs.snakes.map (fun x => (x.1, x.2.move gs.grid_size food_set))
    let snakes1 := moved.map (fun x => (x.1, x.2.1))
    let ate_heads := (moved.filter (fun x => x.2.2)).map (fun x => x.2.1.head)
    let step := fun (fr : List Pos × List Pos) (h : Pos) =>
      if h ∈ fr.1 then generate_food snakes1 (fr.1.erase h) 1 fr.2
      else fr
    let fr' := ate_heads.foldl step (gs.food_positions, rng)
    let vals := collision_pass (snakes1.map (fun x => x.2))
    let snakes2 := (snakes1.map (fun x => x.1)).zip vals
    ({ gs with snakes := snakes2, food_positions := fr'.1 }, fr'.2)

/-! ## GameRoom (server.py 214-384) -/

/-- The per-player info dict a room stores (`{'username': ..., 'socket': ...}`);
the socket handle carries no game state and is omitted. -/
structure PlayerInfo where
  username : String
deriving DecidableEq, Repr

/-- The `GameRoom` (server.py 214-223).  `players` is the insertion-ordered member
dict, `creator_id` the distinguished creator (a single optional field, so a
room structurally has at most one creator). -/
structure GameRoom where
  room_id : String
  room_name : String
  max_players : Nat
  game_state : GameState
  players : List (String × PlayerInfo)
  creator_id : Option String
  game_active : Bool
deriving DecidableEq, Repr

/-- The `GameRoom.__init__(room_id, room_name, max_players)`. -/
def GameRoom.init (room_id room_name : String) (max_players : Nat)
    (rng : List Pos) : GameRoom × List Pos :=
  let gsr := GameState.init (40, 30) rng
  ({ room_id := room_id, room_name := room_name, max_players := max_players,
     game_state := gsr.1, players := [], creator_id := none,
     game_active := false }, gsr.2)

/-- The `GameRoom.add_player` (server.py 225-240): refuse on a full room or a
duplicate member, else insert, claim the creator slot if vacant, then add the
snake.  The `GameState.add_player` failure branch (which would delete the
member again) is kept verbatim even though that call always returns `true`.
The Russian status strings of the source carry no logic and are dropped;
only the success flag is returned. -/
def GameRoom.add_player (r : GameRoom) (player_id : String)
    (player_info : PlayerInfo) (rng : List Pos) :
    (GameRoom × Bool) × List Pos :=
  if r.players.length ≥ r.max_players then ((r, false), rng)
  else if (r.players.lookup player_id).isSome then ((r, false), rng)
  else
    let players' := r.players ++ [(player_id, player_info)]
    let creator' := if r.creator_id = none then some player_id else r.creator_id
    let gsr := r.game_state.add_player player_id player_info.username rng
    if gsr.1.2 then
      (({ r with players := players', creator_id := creator',
                 game_state := gsr.1.1 }, true), gsr.2)
    else
      (({ r with players := players'.filter (fun x => x.1 ≠ player_id),
                 creator_id := creator', game_state := gsr.1.1 }, false), gsr.2)

/-- The `random.choice(list(self.players.keys()))`: the oracle index `pick`
selects a member key of the nonempty survivor list. -/
def choice_key (players : List (String × PlayerInfo)) (pick : Nat) : String :=
  (players.map (fun x => x.1)).getD (pick % players.length) ""

/-- The `GameRoom.remove_player` (server.py 242-263): when the id is a member,
delete it from the member dict and the simulation, re-elect (or clear) the
creator, and report whether the room is now empty (`return not has_players`).
When the id is NOT a member, the `if player_id in self.players` body is
skipped and the local `has_players` is never assigned, so the following
`if has_players:` raises `UnboundLocalError`; that crash is modelled as
`.error`.  The `notify_creator_change` broadcast mutates no room state and is
elided. -/
def GameRoom.remove_player (r : GameRoom) (player_id : String) (pick : Nat) :
    Except String (GameRoom × Bool) :=
  if (r.players.lookup player_id).isSome then
    let players' := r.players.filter (fun x => x.1 ≠ player_id)
    let gs' := r.game_state.remove_player player_id
    let cg : Option String × Bool :=
      if r.creator_id = some player_id then
        if players' ≠ [] then (some (choice_key players' pick), r.game_active)
        else (none, false)
      else if players' = [] then (none, false)
      else (r.creator_id, r.game_active)
    let has_players := decide (players'.length > 0)
    .ok ({ r with players := players', game_state := gs',
                  creator_id := cg.1, game_active := cg.2 }, !has_players)
  else .error "UnboundLocalError: local variable has_players"

/-- The `GameRoom.start_game` (server.py 286-297): creator-only, needs a member,
refuses a rerun while active. -/
def GameRoom.start_game (r : GameRoom) (player_id : String) : GameRoom × Bool :=
  if r.creator_id ≠ some player_id then (r, false)
  else if r.players.length < 1 then (r, false)
  else if r.game_active then (r, false)
  else ({ r with game_active := true,
                 game_state := { r.game_state with game_active := true } }, true)

/-- The `GameRoom.restart_game` (server.py 299-314): creator-only, rebuilds a
fresh `GameState` on the old grid from the current membership and activates
it. -/
def GameRoom.restart_game (r : GameRoom) (player_id : String) (rng : List Pos) :
    (GameRoom × Bool) × List Pos :=
  if r.creator_id ≠ some player_id then ((r, false), rng)
  else if r.players = [] then ((r, false), rng)
  else
    let fresh := GameState.init r.game_state.grid_size rng
    let filled := r.players.foldl
      (fun (acc : GameState × List Pos) x =>
        let st := acc.1.add_player x.1 x.2.username acc.2
        (st.1.1, st.2))
      (fresh.1, fresh.2)
    (({ r with game_state := { filled.1 with game_active := true },
               game_active := true }, true), filled.2)

/-- The `game_over` payload dicts built in `GameRoom.update_game`
(server.py 348-369), one constructor per branch. -/
inductive GameOverPayload where
  | winner (winner_id winner_name : String) (score : Nat)
  | draw
  | single_player (score : Nat)
deriving DecidableEq, Repr

/-- The `GameRoom.update_game` (server.py 336-384): a no-op while inactive; else
one `update_movement`, then the end-condition check over the CURRENT snake
dict (`total = len(snakes)`, `alive` = snakes with the flag set): a sole
survivor among `total > 1` wins with its score, zero survivors among
`total > 1` is a draw, a dead lone snake ends a single-player run with its
score; any payload also clears both active flags.  The broadcasts are
modelled by returning the payload (game-over notice first, then the state
snapshot, which is just the returned room's `game_state`). -/
def GameRoom.update_game (r : GameRoom) (rng : List Pos) :
    (GameRoom × Option GameOverPayload) × List Pos :=
  if ¬r.game_active then ((r, none), rng)
  else
    let gsr := r.game_state.update_movement rng
    let gs' := gsr.1
    let snakes := gs'.snakes
    let alive := snakes.filter (fun x => x.2.alive)
    let total := snakes.length
    let payload : Option GameOverPayload :=
      if alive.length = 1 ∧ total > 1 then
        match alive with
        | (pid, s) :: _ =>
          some (.winner pid (((r.players.lookup pid).map
            (fun i => i.username)).getD "") s.score)
        | [] => none
      else if alive.length = 0 ∧ total > 1 then some .draw
      else if total = 1 ∧ alive.length = 0 then
        match snakes with
        | (_, s) :: _ => some (.single_player s.score)
        | [] => none
      else none
    match payload with
    | some p =>
      ((({ r with game_active := false,
                  game_state := { gs' with game_active := false } }), some p),
       gsr.2)
    | none => (({ r with game_state := gs' }, none), gsr.2)

/-! ## GameServer registry (server.py 387-785) -/

/-- A player-directory record (`self.players[player_id]`); the socket handle
is omitted. -/
structure PlayerRec where
  username : String
  room_id : Option String
deriving DecidableEq, Repr

/-- The registry state of `GameServer`: the player directory, the room
directory (which holds the lobby under key "lobby", aliasing the source's
`self.lobby_room`), and the monotone player-id counter.  Network fields
(`host`, `port`, sockets) and the `running` flag are modelled at the use
sites. -/
structure ServerState where
  players : List (String × PlayerRec)
  rooms : List (String × GameRoom)
  player_counter : Nat
deriving DecidableEq, Repr

/-- The `GameServer._create_lobby` (server.py 402-405): the one lobby room, with
`max_players = 50`. -/
def create_lobby (rng : List Pos) : GameRoom × List Pos :=
  GameRoom.init "lobby" "Лобби" 50 rng

/-- Write an updated room back under its id (in Python the room object is
mutated in place, so the directory entry is implicitly updated). -/
def set_room (rooms : List (String × GameRoom)) (rid : String)
    (room : GameRoom) : List (String × GameRoom) :=
  rooms.map (fun x => if x.1 = rid then (x.1, room) else x)

/-- The room ids a `ROOM_LIST` message advertises
(`get_room_list_message`, server.py 712-718): every directory entry except
the lobby. -/
def room_list_ids (st : ServerState) : List String :=
  (st.rooms.filter (fun x => x.1 ≠ "lobby")).map (fun x => x.1)

/-- The authentication phase of `GameServer.handle_client`
(server.py 441-487), up to the point where the AUTH success reply is sent.
Input: the first decoded envelope (`none` when nothing valid arrived), as a
`(type, username)` pair.  Output: the new registry state and `some player_id`
exactly when the AUTH success reply is sent.  Follows the source: wrong or
missing type ⇒ give up; empty username ⇒ give up; duplicate username ⇒ give
up; otherwise create the directory entry, try to join the lobby, and on a
failed join delete the fresh entry again and send nothing (the id counter
stays incremented, as in the source). -/
def handle_client_auth (st : ServerState) (auth_message : Option (String × String))
    (rng : List Pos) : (ServerState × Option String) × List Pos :=
  match auth_message with
  | none => ((st, none), rng)
  | some (ty, username) =>
    if ty ≠ "auth" then ((st, none), rng)
    else if username = "" then ((st, none), rng)
    else if st.players.any (fun x => x.2.username = username) then ((st, none), rng)
    else
      let counter' := st.player_counter + 1
      let player_id := "player_" ++ toString counter'
      let players1 := st.players ++ [(player_id, ⟨username, none⟩)]
      match st.rooms.lookup "lobby" with
      | none => ((st, none), rng)
      | some lobby =>
        let ar := lobby.add_player player_id ⟨username⟩ rng
        let rooms' := set_room st.rooms "lobby" ar.1.1
        if ar.1.2 then
          ((⟨players1.map (fun x =>
              if x.1 = player_id then (x.1, ⟨username, some "lobby"⟩) else x),
             rooms', counter'⟩, some player_id), ar.2)
        else
          ((⟨players1.filter (fun x => x.1 ≠ player_id), rooms', counter'⟩,
            none), ar.2)

/-- The `GameServer.handle_player_move` (server.py 635-649): look the player up,
refuse outside a non-lobby room; when the room's game is active, apply the
direction update AND immediately run `room.update_game()` — one full
simulation advancement inside the MOVE handler itself, independent of the
background scheduler. -/
def handle_player_move (st : ServerState) (player_id direction : String)
    (rng : List Pos) : ServerState × List Pos :=
  match st.players.lookup player_id with
  | none => (st, rng)
  | some rec =>
    match rec.room_id with
    | none => (st, rng)
    | some rid =>
      if rid = "lobby" then (st, rng)
      else
        match st.rooms.lookup rid with
        | none => (st, rng)
        | some room =>
          if room.game_active then
            let gd := room.game_state.update_player_direction player_id direction
            let room1 := { room with game_state := gd.1 }
            let ur := room1.update_game rng
            ({ st with rooms := set_room st.rooms rid ur.1.1 }, ur.2)
          else (st, rng)

/-- The composition `handle_player_move` performs on the target room while
its game is active: apply the direction update, then run one
`room.update_game()` immediately. -/
def move_room_tick (room : GameRoom) (player_id direction : String)
    (rng : List Pos) : (GameRoom × Option GameOverPayload) × List Pos :=
  ({ room with
      game_state :=
        (room.game_state.update_player_direction player_id
          direction).1 }).update_game rng

/-- One period of `GameServer.game_loop` (server.py 748-760): iterate the
room-directory snapshot once and call `update_game` on every active non-lobby
room (the randomness oracle threads through the rooms in order). -/
def game_loop_tick (rooms : List (String × GameRoom)) (rng : List Pos) :
    List (String × GameRoom) × List Pos :=
  match rooms with
  | [] => ([], rng)
  | (rid, room) :: rest =>
    if rid ≠ "lobby" ∧ room.game_active then
      let ur := room.update_game rng
      let tl := game_loop_tick rest ur.2
      ((rid, ur.1.1) :: tl.1, tl.2)
    else
      let tl := game_loop_tick rest rng
      ((rid, room) :: tl.1, tl.2)

/-- The `GameServer.remove_player` (server.py 724-746): an unknown id returns at
once with nothing changed; otherwise the directory entry is deleted, the
player is removed from its room (a crash inside `GameRoom.remove_player`
propagates), and a room left empty — other than the lobby — is popped from
the room directory. -/
def server_remove_player (st : ServerState) (player_id : String) (pick : Nat) :
    Except String ServerState :=
  match st.players.lookup player_id with
  | none => .ok st
  | some rec =>
    let players' := st.players.filter (fun x => x.1 ≠ player_id)
    match rec.room_id with
    | none => .ok { st with players := players' }
    | some rid =>
      match st.rooms.lookup rid with
      | none => .ok { st with players := players' }
      | some room =>
        match room.remove_player player_id pick with
        | .error e => .error e
        | .ok rr =>
          let rooms1 := set_room st.rooms rid rr.1
          let rooms2 :=
            if rr.2 ∧ rid ≠ "lobby" then rooms1.filter (fun x => x.1 ≠ rid)
            else rooms1
          .ok { st with players := players', rooms := rooms2 }

/-! ## The post-auth receive loop of `handle_client` (server.py 489-506)

The loop repeats while `self.running`; each iteration is one
`GameProtocol.receive_message` call.  `None` (timeout, peer close, decode
failure, any protocol error) hits `if message is None: continue`; a decoded
falsy dict hits `if not message: break`; a decoded envelope whose type is
"disconnect" makes `process_client_message` return "disconnect", which
breaks; every other envelope is dispatched and the loop continues. -/

/-- What one loop iteration does with one receive result. -/
inductive LoopStep where
  | cont
  | brk
deriving DecidableEq, Repr

/-- The control flow of one iteration of the `while self.running` loop on the
result of `receive_message`.  `process_client_message` (server.py 508-526)
returns the string "disconnect" exactly for a DISCONNECT envelope and `None`
for every other type (known or unknown), so only the type tag decides the
loop's fate. -/
def loop_iteration (message : Option Dict) : LoopStep :=
  match message with
  | none => .cont
  | some d =>
    if d.isEmpty then .brk
    else if (d.lookup "type").getD "" = "disconnect" then .brk
    else .cont

/-- Run the receive loop over the modelled socket traffic: element `k` of
`reads_per_iter` is the socket-read trace consumed by iteration `k`'s
`receive_message`.  Returns `some k` when iteration `k` exits the loop via
`break`, and `none` when the traffic is exhausted with the loop still
spinning (the session is still alive, blocked in the next read). -/
def loop_exits (decode : List Nat → Option Dict) :
    List (List RecvCall) → Option Nat
  | [] => none
  | reads :: rest =>
    match loop_iteration (receive_message decode reads) with
    | .brk => some 0
    | .cont => (loop_exits decode rest).map (· + 1)

/-- The whole post-auth part of `handle_client`: if the loop exits within the
modelled traffic, the `finally` block runs the cleanup
(`GameServer.remove_player` plus closing the socket) exactly once and the
session ends; otherwise the session is still running and no cleanup has
happened.  Returns the final registry state paired with the number of times
cleanup ran. -/
def handle_client_session (st : ServerState) (player_id : String) (pick : Nat)
    (decode : List Nat → Option Dict) (reads_per_iter : List (List RecvCall)) :
    Option (Except String ServerState × Nat) :=
  match loop_exits decode reads_per_iter with
  | some _ => some (server_remove_player st player_id pick, 1)
  | none => none

/-! ## Concrete scenario states used by the theorems below -/

/-- A decoder that never succeeds (its value is irrelevant on paths that
fail before decoding). -/
def decode0 : List Nat → Option Dict := fun _ => none

/-- A decoder with one known frame: byte `[1]` decodes to a DISCONNECT
envelope, byte `[7]` to a CHAT envelope. -/
def decode1 : List Nat → Option Dict := fun bs =>
  if bs = [1] then some [("type", "disconnect")]
  else if bs = [7] then some [("type", "chat")]
  else none

/-- Post-move snakes for the collision-order scenario: `a4` (head (5,5), tail
(5,6)), `b4` (head (5,5)) collides head-to-head with `a4`; `c4` (head (5,6))
has its head on `a4`'s tail cell. -/
def a4 : Snake := ⟨"A", [(5, 5), (5, 6)], .UP, .UP, true, 0, (5, 6)⟩

def b4 : Snake := ⟨"B", [(5, 5)], .RIGHT, .RIGHT, true, 0, (4, 5)⟩

def c4 : Snake := ⟨"C", [(5, 6), (4, 6)], .RIGHT, .RIGHT, true, 0, (4, 6)⟩

/-- Post-move snakes for the head-swap scenario: `a5` moved (2,2)→(3,2) and
`b5` moved (3,2)→(2,2) — a textbook head swap — while `c5` moved (3,1)→(3,2)
onto `a5`'s new head. -/
def a5 : Snake := ⟨"A", [(3, 2)], .RIGHT, .RIGHT, true, 0, (2, 2)⟩

def b5 : Snake := ⟨"B", [(2, 2)], .LEFT, .LEFT, true, 0, (3, 2)⟩

def c5 : Snake := ⟨"C", [(3, 2)], .DOWN, .DOWN, true, 0, (3, 1)⟩

/-- An active one-snake room whose player heads RIGHT at (5,5); used to show
a MOVE message advancing the simulation. -/
def room_move : GameRoom :=
  { room_id := "room_1", room_name := "r", max_players := 4,
    game_state := { grid_size := (40, 30),
                    snakes := [("player_1", ⟨"player_1", [(5, 5)], .RIGHT,
                                .RIGHT, true, 0, (5, 5)⟩)],
                    food_positions := [], game_active := true },
    players := [("player_1", ⟨"u"⟩)], creator_id := some "player_1",
    game_active := true }

/-- Registry state around `room_move`. -/
def st_move : ServerState :=
  { players := [("player_1", ⟨"u", some "room_1"⟩)],
    rooms := [("lobby", (create_lobby []).1), ("room_1", room_move)],
    player_counter := 1 }

/-- A simulation run that TWO snakes joined: `A` is one step short of the
right wall of a 10×10 grid, `B` idles at (1,1). -/
def gs_two : GameState :=
  { grid_size := (10, 10),
    snakes := [("A", ⟨"A", [(9, 5)], .RIGHT, .RIGHT, true, 0, (8, 5)⟩),
               ("B", ⟨"B", [(1, 1)], .RIGHT, .RIGHT, true, 0, (1, 1)⟩)],
    food_positions := [], game_active := true }

/-- The room after `B` left mid-run (`GameState.remove_player`), with `A`
about to run into the wall. -/
def room_single : GameRoom :=
  { room_id := "room_2", room_name := "r2", max_players := 4,
    game_state := gs_two.remove_player "B",
    players := [("A", ⟨"alice"⟩)], creator_id := some "A",
    game_active := true }

/-- A two-snake room in which `A` (alive, about to move to a free cell)
outlives `B` (already dead): the next tick must declare `A` the winner. -/
def room_w : GameRoom :=
  { room_id := "room_4", room_name := "r4", max_players := 4,
    game_state := { grid_size := (10, 10),
                    snakes := [("A", ⟨"A", [(5, 5)], .RIGHT, .RIGHT, true, 0,
                                (5, 5)⟩),
                               ("B", ⟨"B", [(1, 1)], .RIGHT, .RIGHT, false, 0,
                                (1, 1)⟩)],
                    food_positions := [], game_active := true },
    players := [("A", ⟨"alice"⟩), ("B", ⟨"bob"⟩)],
    creator_id := some "A", game_active := true }

/-- A one-member room for the double-removal scenario. -/
def room_c9 : GameRoom :=
  { room_id := "room_3", room_name := "r3", max_players := 4,
    game_state := { grid_size := (40, 30), snakes := [], food_positions := [],
                    game_active := false },
    players := [("p1", ⟨"u1"⟩)], creator_id := some "p1", game_active := false }

/-- Registry with `p1` inside `room_c9`. -/
def st_c9 : ServerState :=
  { players := [("p1", ⟨"u1", some "room_3"⟩)],
    rooms := [("lobby", (create_lobby []).1), ("room_3", room_c9)],
    player_counter := 1 }

/-- The registry after `p1` is removed from `st_c9`: the directory entry is
gone and the emptied `room_3` was popped from the room directory. -/
def st_c9_after : ServerState :=
  { players := [], rooms := [("lobby", (create_lobby []).1)],
    player_counter := 1 }

/-- All fields of a snake except the `alive` flag, used to state that the
collision pass never touches anything else. -/
def Snake.sans_alive (s : Snake) : String × List Pos × Dir × Dir × Nat × Pos :=
  (s.player_id, s.body, s.direction, s.next_direction, s.score, s.prev_head)

/-! ## Room-membership reachability apparatus (for the creator invariant) -/

/-- The two operations that mutate a room's membership/creator state
(`GameRoom.add_player` / `GameRoom.remove_player`); `start_game` /
`restart_game` touch neither field. -/
inductive RoomOp where
  | addp (player_id : String) (info : PlayerInfo)
  | removep (player_id : String) (pick : Nat)

/-- Apply one membership operation.  A crash of `remove_player`
(`UnboundLocalError`, see C9) happens before any mutation, so the state is
unchanged on the error path. -/
def apply_op (r : GameRoom) (rng : List Pos) : RoomOp → GameRoom × List Pos
  | .addp pid info =>
    let ar := r.add_player pid info rng
    (ar.1.1, ar.2)
  | .removep pid pick =>
    match r.remove_player pid pick with
    | .ok rr => (rr.1, rng)
    | .error _ => (r, rng)

/-- Run a sequence of membership operations from a given room state. -/
def run_ops : GameRoom → List Pos → List RoomOp → GameRoom
  | r, _, [] => r
  | r, rng, op :: ops =>
    run_ops (apply_op r rng op).1 (apply_op r rng op).2 ops

/-- "The creator, when present, is a current member". -/
def creator_ok (r : GameRoom) : Bool :=
  match r.creator_id with
  | none => true
  | some c => decide (c ∈ r.players.map (fun x => x.1))

/-- The room invariant of the claim: member count within capacity, and the
(at most one) creator is a current member. -/
def room_inv (r : GameRoom) : Prop :=
  r.players.length ≤ r.max_players ∧ creator_ok r = true

/-- A concrete two-member room whose creator `p1` is about to leave. -/
def room_rc : GameRoom :=
  { room_id := "room_5", room_name := "r5", max_players := 4,
    game_state := { grid_size := (40, 30),
                    snakes := [("p1", Snake.init "p1" (3, 3)),
                               ("p2", Snake.init "p2" (7, 7))],
                    food_positions := [], game_active := false },
    players := [("p1", ⟨"u1"⟩), ("p2", ⟨"u2"⟩)],
    creator_id := some "p1", game_active := false }

/-- The `room_rc` after its creator `p1` left: `p2` (the only pickable survivor)
is the new creator. -/
def room_rc_after : GameRoom :=
  { room_id := "room_5", room_name := "r5", max_players := 4,
    game_state := room_rc.game_state.remove_player "p1",
    players := [("p2", ⟨"u2"⟩)],
    creator_id := some "p2", game_active := false }

/-- A lobby filled to its 50-member cap. -/
def lobby50 : GameRoom :=
  { room_id := "lobby", room_name := "Лобби", max_players := 50,
    game_state := { grid_size := (40, 30), snakes := [], food_positions := [],
                    game_active := false },
    players := (List.range 50).map
      (fun i => ("p" ++ toString i, ⟨"u" ++ toString i⟩)),
    creator_id := some "p0", game_active := false }

/-- A server whose lobby is full. -/
def st10 : ServerState :=
  { players := [], rooms := [("lobby", lobby50)], player_counter := 0 }

/-! ## C2: outcomes of `receive_message` -/

/-- C2, counterexample.  The claim says `receive_message` distinguishes a
recoverable "no message ready yet" result on read timeout from a DISTINCT
fatal result on peer close or decode error.  In the code both come back as
the very same `None`: a read timeout (`raiseExc`) and a peer close
(`ret []`, i.e. `recv` returning `b''`) produce identical results, and so
does a decode failure on a complete frame — no caller can tell them apart. -/
theorem c2_counterexample :
    receive_message decode0 [RecvCall.raiseExc] =
      receive_message decode0 [RecvCall.ret []] ∧
    receive_message decode0 [RecvCall.raiseExc] =
      receive_message decode0 [RecvCall.ret [0, 0, 0, 1], RecvCall.ret [9]] ∧
    receive_message decode0 [RecvCall.raiseExc] = none := by
  decide

/-- C2, amended: `receive_message` distinguishes only TWO outcomes, not
three: it returns the decoded envelope on a complete, length-valid,
decodable frame, and it returns `None` on every failure — read
timeout/exception, peer close, non-4-byte or zero or oversize length prefix,
body cut short, and decode error alike — so a caller cannot keep its loop
alive on timeouts while terminating on fatal errors by looking at the
result. -/
theorem c2_amended (decode : List Nat → Option Dict) :
    (receive_message decode [] = none) ∧
    (∀ rest, receive_message decode (.raiseExc :: rest) = none) ∧
    (∀ rest, receive_message decode (.ret [] :: rest) = none) ∧
    (∀ lenBytes rest, lenBytes ≠ [] → u32be lenBytes = none →
      receive_message decode (.ret lenBytes :: rest) = none) ∧
    (∀ len lenBytes rest, u32be lenBytes = some len →
      len > 10 * 1024 * 1024 →
      receive_message decode (.ret lenBytes :: rest) = none) ∧
    (∀ rest, receive_message decode (.ret [0, 0, 0, 0] :: rest) = none) ∧
    (∀ len lenBytes rest, u32be lenBytes = some len →
      len ≤ 10 * 1024 * 1024 → len ≠ 0 → read_body rest [] len = none →
      receive_message decode (.ret lenBytes :: rest) = none) ∧
    (∀ len lenBytes rest data, u32be lenBytes = some len →
      len ≤ 10 * 1024 * 1024 → len ≠ 0 → read_body rest [] len = some data →
      receive_message decode (.ret lenBytes :: rest) = decode data) := by
  refine ⟨rfl, fun _ => rfl, fun _ => rfl, ?_, ?_, ?_, ?_, ?_⟩
  · intro lenBytes rest hne hu
    simp [receive_message, hne, hu]
  · intro len lenBytes rest hu hlen
    have hne : lenBytes ≠ [] := by
      intro h; subst h; simp [u32be] at hu
    simp [receive_message, hne, hu, hlen]
  · intro rest
    simp [receive_message, u32be]
  · intro len lenBytes rest hu hle hnz hrb
    have hne : lenBytes ≠ [] := by
      intro h; subst h; simp [u32be] at hu
    simp [receive_message, hne, hu, Nat.not_lt.mpr hle, hnz, hrb]
  · intro len lenBytes rest data hu hle hnz hrb
    have hne : lenBytes ≠ [] := by
      intro h; subst h; simp [u32be] at hu
    simp [receive_message, hne, hu, Nat.not_lt.mpr hle, hnz, hrb]

/-- C2 amended, witness: a complete CHAT frame decodes, and the failure
conjuncts apply at concrete sockets. -/
theorem c2_witness :
    receive_message decode1 [.ret [0, 0, 0, 1], .ret [7]] =
      some [("type", "chat")] ∧
    receive_message decode1 [.raiseExc] = none ∧
    receive_message decode1 [.ret [0, 0, 0, 2], .ret [7]] = none := by
  refine ⟨?_, (c2_amended decode1).2.1 [], ?_⟩
  · have h := (c2_amended decode1).2.2.2.2.2.2.2 1 [0, 0, 0, 1]
      [.ret [7]] [7] (by decide) (by decide) (by decide) (by decide)
    simpa [decode1] using h
  · exact (c2_amended decode1).2.2.2.2.2.2.1 2 [0, 0, 0, 2] [.ret [7]]
      (by decide) (by decide) (by decide) (by decide)

/-! ## C9: idempotence of the removal operations -/

/-- C9.  Registry-level removal (`GameServer.remove_player`) is idempotent:
the second invocation hits the `player_id not in self.players` early return
and changes nothing.  Room-level removal (`GameRoom.remove_player`) is NOT
safe to invoke twice: on the second call `player_id in self.players` is
false, the guarded block that assigns the local `has_players` is skipped, and
the subsequent `if has_players:` raises `UnboundLocalError` instead of
completing — contradicting the claim (and the spec's idempotence
requirement), which makes this a bug in the code. -/
theorem c9_theorem :
    server_remove_player st_c9 "p1" 0 = .ok st_c9_after ∧
    server_remove_player st_c9_after "p1" 0 = .ok st_c9_after ∧
    (room_c9.remove_player "p1" 0).isOk = true ∧
    ((room_c9.remove_player "p1" 0).toOption.map
      (fun rr => (rr.1.remove_player "p1" 0).isOk)) = some false :=
  ⟨rfl, rfl, rfl, rfl⟩

/-! ## C3: what actually ends the receive loop -/

/-- C3, counterexample.  The claim says the loop terminates on decode
failure, on timeouts, and on peer close.  It does not: all three make
`receive_message` return `None`, which hits `if message is None: continue`
— here 100 consecutive peer-closed reads, 100 timeouts, and 100 undecodable
frames all leave the loop still spinning (`loop_exits = none`), and the
session cleanup has not run (`handle_client_session = none`). -/
theorem c3_counterexample :
    loop_exits decode0 (List.replicate 100 [RecvCall.ret []]) = none ∧
    loop_exits decode0 (List.replicate 100 [RecvCall.raiseExc]) = none ∧
    loop_exits decode0
      (List.replicate 100 [RecvCall.ret [0, 0, 0, 1], RecvCall.ret [9]]) = none ∧
    handle_client_session st_c9 "p1" 0 decode0
      (List.replicate 100 [RecvCall.ret []]) = none := by
  refine ⟨by decide, by decide, by decide, ?_⟩
  show (match loop_exits decode0 (List.replicate 100 [RecvCall.ret []]) with
    | some _ => some (server_remove_player st_c9 "p1" 0, 1)
    | none => none) = none
  rw [show loop_exits decode0 (List.replicate 100 [RecvCall.ret []]) = none
    from by decide]

/-- C3, amended: the receive loop exits only when a decoded envelope is falsy
(an empty dict) or carries the DISCONNECT type, or when the server's
`running` flag drops; every receive failure — timeout, decode failure, peer
close — yields `None` and the loop continues.  When the loop does exit, the
`finally` block runs the cleanup (`GameServer.remove_player` plus closing
the transport) exactly once. -/
theorem c3_amended (decode : List Nat → Option Dict)
    (evs : List (List RecvCall)) (k : Nat)
    (h : loop_exits decode evs = some k) :
    (∃ reads d, evs[k]? = some reads ∧
      receive_message decode reads = some d ∧
      (d.isEmpty = true ∨ (d.lookup "type").getD "" = "disconnect")) ∧
    (∀ st pid pick, handle_client_session st pid pick decode evs =
      some (server_remove_player st pid pick, 1)) := by
  refine ⟨?_, ?_⟩
  · induction evs generalizing k with
    | nil => simp [loop_exits] at h
    | cons reads rest ih =>
      rw [loop_exits] at h
      cases hit : loop_iteration (receive_message decode reads) with
      | brk =>
        rw [hit] at h
        simp only [Option.some.injEq] at h
        subst h
        refine ⟨reads, ?_⟩
        rw [loop_iteration.eq_def] at hit
        cases hr : receive_message decode reads with
        | none => rw [hr] at hit; cases hit
        | some d =>
          rw [hr] at hit
          by_cases hemp : d.isEmpty
          · exact ⟨d, by simp, rfl, Or.inl hemp⟩
          · by_cases hdt : (d.lookup "type").getD "" = "disconnect"
            · exact ⟨d, by simp, rfl, Or.inr hdt⟩
            · simp [hemp, hdt] at hit
      | cont =>
        rw [hit] at h
        rw [Option.map_eq_some'] at h
        obtain ⟨k', hk', rfl⟩ := h
        obtain ⟨reads', d, h1, h2, h3⟩ := ih k' hk'
        exact ⟨reads', d, by simpa using h1, h2, h3⟩
  · intro st pid pick
    rw [handle_client_session, h]

/-- C3 amended, witness: a frame decoding to a DISCONNECT envelope ends the
loop at its first iteration and the cleanup runs exactly once. -/
theorem c3_witness :
    loop_exits decode1 [[RecvCall.ret [0, 0, 0, 1], RecvCall.ret [1]]] =
      some 0 ∧
    handle_client_session st_c9 "p1" 0 decode1
      [[RecvCall.ret [0, 0, 0, 1], RecvCall.ret [1]]] =
      some (server_remove_player st_c9 "p1" 0, 1) :=
  ⟨by decide,
   (c3_amended decode1 [[RecvCall.ret [0, 0, 0, 1], RecvCall.ret [1]]] 0
      (by decide)).2 st_c9 "p1" 0⟩

/-! ## C4: what the collision pass can and cannot change -/

/-- The `check_collision_with_other` changes at most the two `alive` flags, and
only ever from `true` to `false`. -/
theorem check_collision_sans_alive (s o : Snake) :
    (s.check_collision_with_other o).1.sans_alive = s.sans_alive ∧
    (s.check_collision_with_other o).2.1.sans_alive = o.sans_alive ∧
    ((s.check_collision_with_other o).1.alive = true → s.alive = true) ∧
    ((s.check_collision_with_other o).2.1.alive = true → o.alive = true) := by
  simp only [Snake.check_collision_with_other]
  split_ifs <;> simp [Snake.sans_alive]

/-- The `List.getD` after an in-range `List.set`. -/
theorem getD_set_lt (l : List Snake) (i k : Nat) (x d : Snake)
    (hi : i < l.length) :
    (l.set i x).getD k d = if i = k then x else l.getD k d := by
  induction l generalizing i k with
  | nil => simp at hi
  | cons a t ih =>
    cases i with
    | zero => cases k <;> simp
    | succ n =>
      cases k with
      | zero => simp
      | succ m =>
        have := ih n m (by simpa using hi)
        simpa [Nat.succ_inj] using this

/-- Setting an entry to a value with the same non-`alive` fields leaves the
`sans_alive` view of the list unchanged. -/
theorem map_set_sans_alive (l : List Snake) (i : Nat) (x : Snake)
    (h : x.sans_alive = (l.getD i default).sans_alive) :
    (l.set i x).map Snake.sans_alive = l.map Snake.sans_alive := by
  induction l generalizing i with
  | nil => simp
  | cons a t ih =>
    cases i with
    | zero => simpa using h
    | succ n =>
      have := ih n (by simpa using h)
      simpa using this

/-- One `collision_half_step` preserves every non-`alive` field of every
snake and can only clear `alive` flags, never set them. -/
theorem half_step_sans_alive (l : List Snake) (a b : Nat) (hne : a ≠ b)
    (ha : a < l.length) (hb : b < l.length) :
    (collision_half_step l a b).map Snake.sans_alive =
      l.map Snake.sans_alive ∧
    ∀ k, ((collision_half_step l a b).getD k default).alive = true →
      (l.getD k default).alive = true := by
  obtain ⟨c1, c2, c3, c4⟩ :=
    check_collision_sans_alive (l.getD a default) (l.getD b default)
  unfold collision_half_step
  set r := (l.getD a default).check_collision_with_other (l.getD b default)
    with hr
  have hb' : b < (l.set a r.1).length := by simpa using hb
  constructor
  · rw [map_set_sans_alive _ _ _
      (by rw [getD_set_lt _ _ _ _ _ ha, if_neg hne]; exact c2)]
    rw [map_set_sans_alive _ _ _ c1]
  · intro k hk
    by_cases hkb : k = b
    · subst hkb
      rw [getD_set_lt _ _ _ _ _ hb', if_pos rfl] at hk
      exact c4 hk
    · rw [getD_set_lt _ _ _ _ _ hb', if_neg (fun h => hkb h.symm)] at hk
      by_cases hka : k = a
      · subst hka
        rw [getD_set_lt _ _ _ _ _ ha, if_pos rfl] at hk
        exact c3 hk
      · rw [getD_set_lt _ _ _ _ _ ha, if_neg (fun h => hka h.symm)] at hk
        exact hk

/-- One `collision_pair_step` preserves every non-`alive` field of every
snake and can only clear `alive` flags, never set them. -/
theorem pair_step_sans_alive (l : List Snake) (i j : Nat)
    (hij : i < j) (hj : j < l.length) :
    (collision_pair_step l i j).map Snake.sans_alive =
      l.map Snake.sans_alive ∧
    ∀ k, ((collision_pair_step l i j).getD k default).alive = true →
      (l.getD k default).alive = true := by
  have hi : i < l.length := lt_trans hij hj
  have hne : i ≠ j := Nat.ne_of_lt hij
  have h1 := half_step_sans_alive l i j hne hi hj
  have hlen : (collision_half_step l i j).length = l.length := by
    have := congrArg List.length h1.1
    simpa using this
  have h2 := half_step_sans_alive (collision_half_step l i j) j i
    (fun h => hne h.symm) (hlen ▸ hj) (hlen ▸ hi)
  unfold collision_pair_step
  exact ⟨h2.1.trans h1.1, fun k hk => h1.2 k (h2.2 k hk)⟩

/-- Membership in the loop's pair list. -/
theorem mem_all_pairs {n i j : Nat} (h : (i, j) ∈ all_pairs n) :
    i < j ∧ j < n := by
  rw [all_pairs, List.mem_flatten] at h
  obtain ⟨L, hL, hmem⟩ := h
  rw [List.mem_map] at hL
  obtain ⟨i', hi', rfl⟩ := hL
  rw [List.mem_map] at hmem
  obtain ⟨j', hj', he⟩ := hmem
  rw [List.mem_filter, List.mem_range] at hj'
  injection he with h1 h2
  subst h1
  subst h2
  exact ⟨by simpa using hj'.2, hj'.1⟩

/-- The whole fold of pair steps preserves the `sans_alive` view and is
monotone on death. -/
theorem pass_fold_sans_alive (pairs : List (Nat × Nat)) (l : List Snake)
    (hp : ∀ p ∈ pairs, p.1 < p.2 ∧ p.2 < l.length) :
    (pairs.foldl (fun acc p => collision_pair_step acc p.1 p.2) l).map
        Snake.sans_alive = l.map Snake.sans_alive ∧
    ∀ k, ((pairs.foldl (fun acc p => collision_pair_step acc p.1 p.2)
        l).getD k default).alive = true →
      (l.getD k default).alive = true := by
  induction pairs generalizing l with
  | nil => exact ⟨rfl, fun _ h => h⟩
  | cons p ps ih =>
    have hp0 := hp p (List.mem_cons_self p ps)
    have h1 := pair_step_sans_alive l p.1 p.2 hp0.1 hp0.2
    have hlen : (collision_pair_step l p.1 p.2).length = l.length := by
      have := congrArg List.length h1.1
      simpa using this
    have h2 := ih (collision_pair_step l p.1 p.2)
      (fun q hq => ⟨(hp q (List.mem_cons_of_mem p hq)).1,
        hlen ▸ (hp q (List.mem_cons_of_mem p hq)).2⟩)
    exact ⟨h2.1.trans h1.1, fun k hk => h1.2 k (h2.2 k hk)⟩

/-- C4, counterexample.  The claim says the set of surviving snakes is the
same for every ordering of the pairwise evaluations.  It is not: with `a4`
and `b4` colliding head-to-head and `c4`'s head resting on `a4`'s tail cell,
evaluating in the order `[a4, b4, c4]` kills `a4`/`b4` first, after which the
`a4`-vs-`c4` pair is SKIPPED (the guard returns early when either snake is
already dead) and `c4` survives; in the order `[c4, a4, b4]` the `c4`-vs-`a4`
pair is evaluated first and `c4` dies too — two different survivor sets from
the same set of moved snakes. -/
theorem c4_counterexample :
    alive_ids (collision_pass [a4, b4, c4]) = ["C"] ∧
    alive_ids (collision_pass [c4, a4, b4]) = [] ∧
    ("C" ∈ alive_ids (collision_pass [a4, b4, c4]) ∧
     "C" ∉ alive_ids (collision_pass [c4, a4, b4])) := by
  decide

/-- C4, amended: within one tick's resolution pass, death only ever clears
the `alive` flag — every other field (id, body cells, headings, score,
previous head) of every snake is untouched and no dead snake is revived —
but the surviving SET is not order-independent, because a pair is skipped
whenever one of its snakes already died earlier in the pass
(see the counterexample). -/
theorem c4_amended (l : List Snake) :
    (collision_pass l).map Snake.sans_alive = l.map Snake.sans_alive ∧
    ∀ k, ((collision_pass l).getD k default).alive = true →
      (l.getD k default).alive = true := by
  unfold collision_pass
  exact pass_fold_sans_alive (all_pairs l.length) l
    (fun p hp => mem_all_pairs (by simpa using hp))

/-- C4 amended, witness: in the three-snake scenario the pass keeps every
body intact, and the surviving snake `c4` was indeed alive before. -/
theorem c4_witness :
    (collision_pass [a4, b4, c4]).map Snake.sans_alive =
      [a4, b4, c4].map Snake.sans_alive ∧
    ([a4, b4, c4].getD 2 default).alive = true :=
  ⟨(c4_amended [a4, b4, c4]).1, (c4_amended [a4, b4, c4]).2 2 (by decide)⟩

/-! ## C5: head-swap mutual kill -/

/-- C5, counterexample.  `a5` and `b5` performed a genuine head swap (each
new head equals the other's previous head) and both were alive after valid
moves, yet the pass over `[c5, a5, b5]` leaves `b5` ALIVE as the single
survivor of the swap: `c5` collides head-to-head with `a5` when the pair
(c5, a5) is evaluated first, and the later (a5, b5) pair is skipped because
`a5` is already dead — contradicting "the order of evaluation never produces
a single survivor of the swap". -/
theorem c5_counterexample :
    a5.alive = true ∧ b5.alive = true ∧
    a5.head = b5.prev_head ∧ b5.head = a5.prev_head ∧
    alive_ids (collision_pass [c5, a5, b5]) = ["B"] := by
  decide

/-- C5, amended: the mutual kill is guaranteed only when no third snake
interferes: for an isolated pair — the pass running over exactly the two
swap partners — a head swap kills both, in either evaluation order.  With
more snakes in the pass, an earlier death of one partner skips the pair and
can leave a single survivor (see the counterexample). -/
theorem c5_amended (A B : Snake) (hA : A.alive = true) (hB : B.alive = true)
    (h1 : A.head = B.prev_head) (h2 : B.head = A.prev_head) :
    (∀ s ∈ collision_pass [A, B], s.alive = false) ∧
    (∀ s ∈ collision_pass [B, A], s.alive = false) := by
  have key : ∀ X Y : Snake, X.alive = true → Y.alive = true →
      X.head = Y.prev_head → Y.head = X.prev_head →
      ∀ s ∈ collision_pass [X, Y], s.alive = false := by
    intro X Y hX hY hXY hYX
    have hcheck : X.check_collision_with_other Y =
        ({ X with alive := false }, { Y with alive := false }, true) := by
      by_cases hh : X.head = Y.head
      · simp [Snake.check_collision_with_other, hX, hY, hh]
      · simp [Snake.check_collision_with_other, hX, hY, hh, hYX.symm,
          hXY.symm]
    have hhalf : collision_half_step [X, Y] 0 1 =
        [{ X with alive := false }, { Y with alive := false }] := by
      simp [collision_half_step, hcheck]
    have hres : collision_pass [X, Y] =
        [{ X with alive := false }, { Y with alive := false }] := by
      show collision_half_step (collision_half_step [X, Y] 0 1) 1 0 = _
      rw [hhalf]
      simp [collision_half_step, Snake.check_collision_with_other]
    intro s hs
    rw [hres] at hs
    simp only [List.mem_cons, List.not_mem_nil, or_false] at hs
    rcases hs with rfl | rfl
    · simp
    · simp
  exact ⟨key A B hA hB h1 h2, key B A hB hA h2 h1⟩

/-- C5 amended, witness: the isolated pair `a5`, `b5` both die, in either
order. -/
theorem c5_witness :
    (collision_pass [a5, b5]).all (fun s => !s.alive) = true ∧
    (collision_pass [b5, a5]).all (fun s => !s.alive) = true := by
  have h := c5_amended a5 b5 rfl rfl rfl rfl
  refine ⟨List.all_eq_true.mpr (fun s hs => ?_),
    List.all_eq_true.mpr (fun s hs => ?_)⟩
  · simp [h.1 s hs]
  · simp [h.2 s hs]

/-! ## C8: growth invariant of `Snake.move` -/

/-- C8.  For an alive snake making a valid move (new head inside the grid and
not on its own body): landing on a food cell grows the body by exactly one
cell and the score by exactly 10 in the same tick (and reports `ate_food`);
landing elsewhere leaves length and score unchanged.  And unconditionally —
valid move, fatal move, or dead snake — `move` never shrinks a body, so a
living snake's length never decreases. -/
theorem c8_theorem :
    (∀ (s : Snake) (grid : Int × Int) (food : List Pos),
      s.alive = true → s.body ≠ [] →
      ¬(s.new_head.1 < 0 ∨ s.new_head.1 ≥ grid.1 ∨
        s.new_head.2 < 0 ∨ s.new_head.2 ≥ grid.2) →
      s.new_head ∉ s.body →
      (s.new_head ∈ food →
        (s.move grid food).1.body.length = s.body.length + 1 ∧
        (s.move grid food).1.score = s.score + 10 ∧
        (s.move grid food).2 = true) ∧
      (s.new_head ∉ food →
        (s.move grid food).1.body.length = s.body.length ∧
        (s.move grid food).1.score = s.score ∧
        (s.move grid food).2 = false)) ∧
    (∀ (s : Snake) (grid : Int × Int) (food : List Pos),
      (s.move grid food).1.body.length ≥ s.body.length) := by
  constructor
  · intro s grid food halive hbody hwall hself
    have hs2 : ((s.head.1 + s.next_direction.delta.1,
        s.head.2 + s.next_direction.delta.2) : Pos) ∉ s.body := by
      simpa [Snake.new_head] using hself
    have hw2 : ¬(s.head.1 + s.next_direction.delta.1 < 0 ∨
        s.head.1 + s.next_direction.delta.1 ≥ grid.1 ∨
        s.head.2 + s.next_direction.delta.2 < 0 ∨
        s.head.2 + s.next_direction.delta.2 ≥ grid.2) := by
      simpa [Snake.new_head] using hwall
    have hmv : s.move grid food =
        (if s.new_head ∈ food then
          ({ s with
              prev_head := s.head
              direction := s.next_direction
              body := s.new_head :: s.body
              score := s.score + 10 }, true)
        else
          ({ s with
              prev_head := s.head
              direction := s.next_direction
              body := if (s.new_head :: s.body).length > 1 then
                  (s.new_head :: s.body).dropLast
                else s.new_head :: s.body }, false)) := by
      simp only [Snake.move, Snake.new_head, halive]
      rw [if_neg hw2]
      rw [if_neg hs2]
      simp
    constructor
    · intro hfood
      rw [hmv, if_pos hfood]
      simp
    · intro hfood
      rw [hmv, if_neg hfood]
      have hlen : (s.new_head :: s.body).length > 1 := by
        cases hb : s.body with
        | nil => exact absurd hb hbody
        | cons a t => simp
      simp only [if_pos hlen]
      simp [List.length_dropLast]
  · intro s grid food
    simp only [Snake.move]
    split_ifs <;>
      simp [List.length_dropLast, Nat.le_succ]

/-- C8, witness: a snake of length 1 at (2,2) heading RIGHT onto food at
(3,2) grows to length 2 and score 10; heading onto a free cell keeps length
1 and score 0; and the no-shrink bound holds at that snake. -/
theorem c8_witness :
    ((⟨"W", [(2, 2)], .RIGHT, .RIGHT, true, 0, (2, 2)⟩ :
        Snake).move (10, 10) [(3, 2)]).1.body.length = 2 ∧
    ((⟨"W", [(2, 2)], .RIGHT, .RIGHT, true, 0, (2, 2)⟩ :
        Snake).move (10, 10) [(3, 2)]).1.score = 10 ∧
    ((⟨"W", [(2, 2)], .RIGHT, .RIGHT, true, 0, (2, 2)⟩ :
        Snake).move (10, 10) []).1.body.length = 1 ∧
    ((⟨"W", [(2, 2)], .RIGHT, .RIGHT, true, 0, (2, 2)⟩ :
        Snake).move (10, 10) []).1.body.length ≥ 1 := by
  have h1 := (c8_theorem.1 ⟨"W", [(2, 2)], .RIGHT, .RIGHT, true, 0, (2, 2)⟩
    (10, 10) [(3, 2)] rfl (by decide) (by decide) (by decide)).1 (by decide)
  have h2 := (c8_theorem.1 ⟨"W", [(2, 2)], .RIGHT, .RIGHT, true, 0, (2, 2)⟩
    (10, 10) [] rfl (by decide) (by decide) (by decide)).2 (by decide)
  have h3 := c8_theorem.2 ⟨"W", [(2, 2)], .RIGHT, .RIGHT, true, 0, (2, 2)⟩
    (10, 10) []
  exact ⟨h1.1, h1.2.1, h2.1, by simpa using h3⟩

/-! ## C1: the simulation clock -/

/-- One scheduler period ticks every active non-lobby room exactly once (and
touches no other room): entry `k` of the result is the input room advanced by
exactly one `update_game` when it is an active non-lobby room, and unchanged
otherwise. -/
theorem game_loop_tick_spec (rooms : List (String × GameRoom))
    (rng : List Pos) :
    (game_loop_tick rooms rng).1.length = rooms.length ∧
    ∀ (k : Nat) (rid : String) (room : GameRoom),
      rooms[k]? = some (rid, room) →
      ((rid = "lobby" ∨ room.game_active = false) →
        (game_loop_tick rooms rng).1[k]? = some (rid, room)) ∧
      (rid ≠ "lobby" → room.game_active = true →
        ∃ rng0, (game_loop_tick rooms rng).1[k]? =
          some (rid, (room.update_game rng0).1.1)) := by
  induction rooms generalizing rng with
  | nil =>
    refine ⟨rfl, ?_⟩
    intro k rid room hk
    simp at hk
  | cons hd tl ih =>
    rcases hd with ⟨hid, hroom⟩
    have hdef : game_loop_tick ((hid, hroom) :: tl) rng =
        if hid ≠ "lobby" ∧ hroom.game_active then
          ((hid, (hroom.update_game rng).1.1) ::
            (game_loop_tick tl (hroom.update_game rng).2).1,
           (game_loop_tick tl (hroom.update_game rng).2).2)
        else
          ((hid, hroom) :: (game_loop_tick tl rng).1,
           (game_loop_tick tl rng).2) := rfl
    by_cases hc : hid ≠ "lobby" ∧ hroom.game_active = true
    · rw [hdef, if_pos (by simpa using hc)]
      refine ⟨by simpa using (ih (hroom.update_game rng).2).1, ?_⟩
      intro k rid room hk
      cases k with
      | zero =>
        simp only [List.getElem?_cons_zero, Option.some.injEq] at hk
        obtain ⟨rfl, rfl⟩ := Prod.mk.injEq .. ▸ hk
        constructor
        · intro hdis
          rcases hdis with hdis | hdis
          · exact absurd hdis hc.1
          · rw [hc.2] at hdis; cases hdis
        · intro _ _
          exact ⟨rng, by simp⟩
      | succ k =>
        simp only [List.getElem?_cons_succ] at hk ⊢
        exact (ih (hroom.update_game rng).2).2 k rid room hk
    · rw [hdef, if_neg (by simpa using hc)]
      refine ⟨by simpa using (ih rng).1, ?_⟩
      intro k rid room hk
      cases k with
      | zero =>
        simp only [List.getElem?_cons_zero, Option.some.injEq] at hk
        obtain ⟨rfl, rfl⟩ := Prod.mk.injEq .. ▸ hk
        constructor
        · intro _
          simp
        · intro hrid hact
          exact absurd ⟨hrid, hact⟩ hc
      | succ k =>
        simp only [List.getElem?_cons_succ] at hk ⊢
        exact (ih rng).2 k rid room hk

/-- C1, counterexample.  The claim says a MOVE never causes an additional
mid-period advancement of the simulation.  It does: in `st_move` the snake
sits at (5,5); merely handling one MOVE("UP") message (no scheduler tick
involved) leaves it at (5,4) — `handle_player_move` calls
`room.update_game()` directly, advancing the simulation. -/
theorem c1_counterexample :
    ((st_move.rooms.lookup "room_1").map
      (fun r => r.game_state.snakes.map (fun x => x.2.body))) =
        some [[(5, 5)]] ∧
    (((handle_player_move st_move "player_1" "UP" []).1.rooms.lookup
        "room_1").map
      (fun r => r.game_state.snakes.map (fun x => x.2.body))) =
        some [[(5, 4)]] := by
  decide

/-- C1, amended: the fixed-period background scheduler does tick every
active non-lobby room exactly once per period; but the scheduler is NOT the
sole clock: a MOVE from a player whose non-lobby room has an active game
applies the direction update and then immediately runs one full
`update_game` — an extra, traffic-driven advancement of the simulation
inside the handler itself. -/
theorem c1_amended (st : ServerState) (player_id direction rid : String)
    (rec : PlayerRec) (room : GameRoom) (rng : List Pos)
    (h1 : st.players.lookup player_id = some rec)
    (h2 : rec.room_id = some rid) (h3 : rid ≠ "lobby")
    (h4 : st.rooms.lookup rid = some room) (h5 : room.game_active = true) :
    handle_player_move st player_id direction rng =
      ({ st with rooms := set_room st.rooms rid (move_room_tick room player_id direction rng).1.1 },
       (move_room_tick room player_id direction rng).2) ∧
    (∀ (rooms : List (String × GameRoom)) (rng' : List Pos),
      (game_loop_tick rooms rng').1.length = rooms.length ∧
      ∀ (k : Nat) (rid' : String) (room' : GameRoom),
        rooms[k]? = some (rid', room') →
        ((rid' = "lobby" ∨ room'.game_active = false) →
          (game_loop_tick rooms rng').1[k]? = some (rid', room')) ∧
        (rid' ≠ "lobby" → room'.game_active = true →
          ∃ rng0, (game_loop_tick rooms rng').1[k]? =
            some (rid', (room'.update_game rng0).1.1))) := by
  refine ⟨?_, game_loop_tick_spec⟩
  simp only [handle_player_move, move_room_tick, h1, h2, h4, h3, h5]
  simp [h3]

/-- C1 amended, witness: the MOVE handler equation at the concrete state
`st_move`, and one concrete scheduler pass. -/
theorem c1_witness :
    handle_player_move st_move "player_1" "UP" [] =
      ({ st_move with rooms := set_room st_move.rooms "room_1" (move_room_tick room_move "player_1" "UP" []).1.1 },
       (move_room_tick room_move "player_1" "UP" []).2) ∧
    (game_loop_tick st_move.rooms []).1.length = st_move.rooms.length :=
  ⟨(c1_amended st_move "player_1" "UP" "room_1" ⟨"u", some "room_1"⟩
      room_move [] (by decide) rfl (by decide) (by decide) rfl).1,
   ((c1_amended st_move "player_1" "UP" "room_1" ⟨"u", some "room_1"⟩
      room_move [] (by decide) rfl (by decide) (by decide) rfl).2
      st_move.rooms []).1⟩

/-! ## C6: end-condition detection -/

/-- C6, counterexample.  The claim takes N to be "the total number of snakes
that ever joined this simulation run".  The code's `total = len(snakes)`
counts the snakes CURRENTLY in the dict, and `GameState.remove_player`
deletes a leaver's snake: in a run that two snakes joined (`gs_two`), after
`B` is removed and the last snake `A` dies, the code declares a
single-player end (`total == 1`), not the draw that N = 2 (ever joined),
A = 0 would demand. -/
theorem c6_counterexample :
    gs_two.snakes.length = 2 ∧
    room_single.game_state = gs_two.remove_player "B" ∧
    (room_single.update_game []).1.2 =
      some (GameOverPayload.single_player 0) ∧
    (room_single.update_game []).1.2 ≠ some GameOverPayload.draw ∧
    (room_single.update_game []).1.1.game_active = false := by
  decide

/-- C6, amended: with N the number of snakes CURRENTLY in the simulation
(those that joined and were not removed) after the tick's movement pass, and
A the number of those alive: N>1 ∧ A=1 declares the sole survivor winner
with their score; N>1 ∧ A=0 declares a draw; N=1 ∧ A=0 ends the lone
player's run with their own score as a single-player end; each of the three
clears both active flags, and in every other case no game-over is declared
and the room stays active. -/
theorem c6_amended (r : GameRoom) (rng : List Pos)
    (h : r.game_active = true) :
    (∀ (pid : String) (s : Snake),
      ((r.game_state.update_movement rng).1.snakes.filter
        (fun x => x.2.alive)) = [(pid, s)] →
      (r.game_state.update_movement rng).1.snakes.length > 1 →
      (r.update_game rng).1.2 = some (GameOverPayload.winner pid
        (((r.players.lookup pid).map (fun i => i.username)).getD "")
        s.score) ∧
      (r.update_game rng).1.1.game_active = false ∧
      (r.update_game rng).1.1.game_state.game_active = false) ∧
    (((r.game_state.update_movement rng).1.snakes.filter
        (fun x => x.2.alive)).length = 0 →
      (r.game_state.update_movement rng).1.snakes.length > 1 →
      (r.update_game rng).1.2 = some GameOverPayload.draw ∧
      (r.update_game rng).1.1.game_active = false ∧
      (r.update_game rng).1.1.game_state.game_active = false) ∧
    (∀ (pid : String) (s : Snake),
      (r.game_state.update_movement rng).1.snakes = [(pid, s)] →
      s.alive = false →
      (r.update_game rng).1.2 =
        some (GameOverPayload.single_player s.score) ∧
      (r.update_game rng).1.1.game_active = false ∧
      (r.update_game rng).1.1.game_state.game_active = false) ∧
    (¬(((r.game_state.update_movement rng).1.snakes.filter
          (fun x => x.2.alive)).length = 1 ∧
        (r.game_state.update_movement rng).1.snakes.length > 1) →
      ¬(((r.game_state.update_movement rng).1.snakes.filter
          (fun x => x.2.alive)).length = 0 ∧
        (r.game_state.update_movement rng).1.snakes.length > 1) →
      ¬((r.game_state.update_movement rng).1.snakes.length = 1 ∧
        ((r.game_state.update_movement rng).1.snakes.filter
          (fun x => x.2.alive)).length = 0) →
      (r.update_game rng).1.2 = none ∧
      (r.update_game rng).1.1.game_active = true) := by
  refine ⟨?_, ?_, ?_, ?_⟩
  · intro pid s hfil htot
    simp only [GameRoom.update_game, h, not_true, if_false, hfil]
    simp [htot]
  · intro hfil htot
    simp only [GameRoom.update_game, h, not_true, if_false]
    rw [if_neg (by rw [hfil]; omega)]
    rw [if_pos ⟨hfil, htot⟩]
    exact ⟨rfl, rfl, rfl⟩
  · intro pid s hone halive
    simp only [GameRoom.update_game, h, not_true, if_false, hone]
    simp [halive]
  · intro hn1 hn2 hn3
    simp only [GameRoom.update_game, h, not_true, if_false]
    rw [if_neg hn1, if_neg hn2, if_neg hn3]
    exact ⟨rfl, rfl⟩

/-- C6 amended, witness: in `room_w` (two current snakes, one alive after
the tick) the survivor `A` is declared winner with score 0 and the room is
deactivated. -/
theorem c6_witness :
    (room_w.update_game []).1.2 = some (GameOverPayload.winner "A"
      (((room_w.players.lookup "A").map (fun i => i.username)).getD "") 0) ∧
    (room_w.update_game []).1.1.game_active = false := by
  have hw := (c6_amended room_w [] rfl).1 "A"
    ⟨"A", [(6, 5)], .RIGHT, .RIGHT, true, 0, (5, 5)⟩ (by decide) (by decide)
  exact ⟨hw.1, hw.2.1⟩

/-! ## C7: creator invariant, re-election, teardown -/

/-- The `GameState.add_player` returns `True` on every path of the source. -/
theorem gs_add_player_true (gs : GameState) (pid u : String)
    (rng : List Pos) : (gs.add_player pid u rng).1.2 = true := by
  unfold GameState.add_player
  split_ifs with h
  · rfl
  · rcases hpa : place_attempts gs.snakes 100 rng with ⟨o, rng'⟩
    cases o <;> rfl

/-- The `random.choice` over the member keys picks a member. -/
theorem choice_key_mem (players : List (String × PlayerInfo)) (pick : Nat)
    (h : players ≠ []) :
    choice_key players pick ∈ players.map (fun x => x.1) := by
  unfold choice_key
  have hlen : 0 < players.length := List.length_pos.mpr h
  have hlt : pick % players.length < (players.map (fun x => x.1)).length := by
    simpa using Nat.mod_lt pick hlen
  rw [List.getD_eq_getElem _ _ hlt]
  exact List.getElem_mem hlt

/-- The `GameRoom.add_player` preserves the room invariant. -/
theorem add_player_inv (r : GameRoom) (pid : String) (info : PlayerInfo)
    (rng : List Pos) (hinv : room_inv r) :
    room_inv (r.add_player pid info rng).1.1 := by
  have hgs := gs_add_player_true r.game_state pid info.username rng
  simp only [GameRoom.add_player]
  by_cases hfull : r.players.length ≥ r.max_players
  · rw [if_pos hfull]; exact hinv
  · rw [if_neg hfull]
    by_cases hdup : (r.players.lookup pid).isSome = true
    · rw [if_pos hdup]; exact hinv
    · rw [if_neg hdup]
      rw [hgs, if_pos rfl]
      constructor
      · simpa using Nat.succ_le_of_lt (lt_of_not_ge hfull)
      · unfold creator_ok
        by_cases hcn : r.creator_id = none
        · simp [hcn]
        · rcases hc : r.creator_id with _ | c
          · exact absurd hc hcn
          · have hc2 := hinv.2
            unfold creator_ok at hc2
            rw [hc] at hc2
            simp only [decide_eq_true_eq] at hc2
            simp [hc2]

/-- A successful `GameRoom.remove_player` preserves the room invariant. -/
theorem remove_player_inv (r : GameRoom) (pid : String) (pick : Nat)
    (r' : GameRoom) (b : Bool) (hinv : room_inv r)
    (hok : r.remove_player pid pick = .ok (r', b)) :
    room_inv r' := by
  simp only [GameRoom.remove_player] at hok
  split_ifs at hok with hmem hcr hne hne2
  · -- creator removed, survivors remain: elected creator is a survivor
    simp only [Except.ok.injEq, Prod.mk.injEq] at hok
    obtain ⟨hr', _⟩ := hok
    subst hr'
    refine ⟨le_trans (List.length_filter_le _ _) hinv.1, ?_⟩
    unfold creator_ok
    simpa using choice_key_mem _ pick hne
  · -- creator removed, room empty: creator cleared
    simp only [Except.ok.injEq, Prod.mk.injEq] at hok
    obtain ⟨hr', _⟩ := hok
    subst hr'
    exact ⟨le_trans (List.length_filter_le _ _) hinv.1, rfl⟩
  · -- non-creator removed, room empty: creator cleared
    simp only [Except.ok.injEq, Prod.mk.injEq] at hok
    obtain ⟨hr', _⟩ := hok
    subst hr'
    exact ⟨le_trans (List.length_filter_le _ _) hinv.1, rfl⟩
  · -- non-creator removed, survivors remain: creator unchanged
    simp only [Except.ok.injEq, Prod.mk.injEq] at hok
    obtain ⟨hr', _⟩ := hok
    subst hr'
    refine ⟨le_trans (List.length_filter_le _ _) hinv.1, ?_⟩
    unfold creator_ok
    rcases hc : r.creator_id with _ | c
    · rfl
    · have hc2 := hinv.2
      unfold creator_ok at hc2
      rw [hc] at hc2
      simp only [decide_eq_true_eq] at hc2 ⊢
      have hcne : c ≠ pid := by
        intro hh
        rw [hh] at hc
        exact hcr hc
      rcases List.mem_map.mp hc2 with ⟨x, hx, hx1⟩
      refine List.mem_map.mpr ⟨x, List.mem_filter.mpr ⟨hx, ?_⟩, hx1⟩
      subst hx1
      simpa using hcne

/-- Any sequence of membership operations preserves the room invariant. -/
theorem run_ops_inv (ops : List RoomOp) (r : GameRoom) (rng : List Pos)
    (hinv : room_inv r) : room_inv (run_ops r rng ops) := by
  induction ops generalizing r rng with
  | nil => exact hinv
  | cons op ops ih =>
    cases op with
    | addp pid info =>
      exact ih _ _ (add_player_inv r pid info rng hinv)
    | removep pid pick =>
      show room_inv (run_ops (apply_op r rng (.removep pid pick)).1 _ ops)
      rcases hrm : r.remove_player pid pick with e | rr
      · simpa [apply_op, hrm] using ih _ _ hinv
      · have := remove_player_inv r pid pick rr.1 rr.2 hinv (by rw [hrm])
        simpa [apply_op, hrm] using ih _ _ this

/-- C7.  (i) Every room state reachable from a fresh room by any sequence of
membership operations keeps at most `capacity` members and its (at most one,
by the shape of `creator_id`) creator a current member; (ii) removing the
creator while other members remain elects a new creator from the survivors;
(iii) when the registry removes a room's last member, the (non-lobby) room
is popped from the room directory and no longer appears in the room list. -/
theorem c7_theorem :
    (∀ (rid name : String) (cap : Nat) (rng : List Pos) (ops : List RoomOp),
      room_inv (run_ops (GameRoom.init rid name cap rng).1
        (GameRoom.init rid name cap rng).2 ops)) ∧
    (∀ (r : GameRoom) (pid : String) (pick : Nat) (r' : GameRoom),
      r.creator_id = some pid →
      r.remove_player pid pick = .ok (r', false) →
      ∃ c, r'.creator_id = some c ∧
        c ∈ r'.players.map (fun x => x.1)) ∧
    (∀ (st : ServerState) (player_id rid : String) (rec : PlayerRec)
        (room : GameRoom) (info : PlayerInfo) (pick : Nat)
        (st' : ServerState),
      st.players.lookup player_id = some rec →
      rec.room_id = some rid → rid ≠ "lobby" →
      st.rooms.lookup rid = some room →
      room.players = [(player_id, info)] →
      server_remove_player st player_id pick = .ok st' →
      rid ∉ room_list_ids st') := by
  refine ⟨?_, ?_, ?_⟩
  · intro rid name cap rng ops
    refine run_ops_inv ops _ _ ⟨?_, ?_⟩
    · simp [GameRoom.init]
    · rfl
  · intro r pid pick r' hcr hok
    simp only [GameRoom.remove_player] at hok
    split_ifs at hok with hmem hne
    · simp only [Except.ok.injEq, Prod.mk.injEq] at hok
      obtain ⟨hr', _⟩ := hok
      subst hr'
      exact ⟨choice_key (r.players.filter (fun x => x.1 ≠ pid)) pick, rfl,
        choice_key_mem _ pick hne⟩
    · -- creator removed and room empty would have returned the flag `true`
      exfalso
      simp only [Except.ok.injEq, Prod.mk.injEq] at hok
      obtain ⟨_, hb⟩ := hok
      rw [not_ne_iff.mp hne] at hb
      simp at hb
  · intro st player_id rid rec room info pick st' h1 h2 h3 h4 h5 hok
    have hrm : room.remove_player player_id pick =
        .ok ({ room with
          players := []
          game_state := room.game_state.remove_player player_id
          creator_id := none
          game_active := false }, true) := by
      simp only [GameRoom.remove_player, h5]
      by_cases hcr : room.creator_id = some player_id <;> simp [hcr]
    simp only [server_remove_player, h1, h2, h4, hrm, h3, ne_eq,
      not_false_eq_true, and_true, if_true, Except.ok.injEq] at hok
    subst hok
    intro hmem
    unfold room_list_ids at hmem
    rcases List.mem_map.mp hmem with ⟨x, hx, hx1⟩
    have hx2 := (List.mem_filter.mp hx).1
    have hx3 := List.mem_filter.mp hx2
    have hxne : x.1 ≠ rid := by simpa using hx3.2
    exact hxne hx1

/-- C7, witness: a fresh room taken through add/add/remove keeps the
invariant; removing the creator of `room_rc` leaves a creator who is a
member; and removing the last member of `room_3` makes it vanish from the
room list. -/
theorem c7_witness :
    room_inv (run_ops (GameRoom.init "room_9" "r9" 4 []).1
      (GameRoom.init "room_9" "r9" 4 []).2
      [RoomOp.addp "p1" ⟨"u1"⟩, RoomOp.addp "p2" ⟨"u2"⟩,
       RoomOp.removep "p1" 0]) ∧
    room_rc_after.creator_id.isSome = true ∧
    (room_rc_after.creator_id.getD "") ∈
      room_rc_after.players.map (fun x => x.1) ∧
    "room_3" ∉ room_list_ids st_c9_after := by
  have h2 := c7_theorem.2.1 room_rc "p1" 0 room_rc_after rfl (by rfl)
  obtain ⟨c, hc1, hc2⟩ := h2
  refine ⟨c7_theorem.1 "room_9" "r9" 4 [] _, ?_, ?_, ?_⟩
  · rw [hc1]; rfl
  · rw [hc1]; simpa using hc2
  · exact c7_theorem.2.2 st_c9 "p1" "room_3" ⟨"u1", some "room_3"⟩ room_c9
      ⟨"u1"⟩ 0 st_c9_after (by rfl) rfl (by decide) (by rfl) (by rfl) (by rfl)

/-! ## C10: the lobby cap bounds concurrent players -/

/-- C10.  The lobby is created with `max_players = 50`, and in any server
state whose lobby already holds 50 members a new client's authentication
fails even with a valid, unique, non-empty username: the freshly created
player-directory entry is deleted again (the directory ends up unchanged)
and no AUTH success reply is produced (the connection is then closed by the
session's `finally` block). -/
theorem c10_theorem (st : ServerState) (lobby : GameRoom) (username : String)
    (rng : List Pos)
    (hlob : st.rooms.lookup "lobby" = some lobby)
    (hcap : lobby.max_players = 50)
    (hfull : lobby.players.length = 50)
    (hne : username ≠ "")
    (huniq : st.players.any (fun x => x.2.username = username) = false)
    (hfresh : ("player_" ++ toString (st.player_counter + 1)) ∉
      st.players.map (fun x => x.1)) :
    (create_lobby rng).1.max_players = 50 ∧
    (handle_client_auth st (some ("auth", username)) rng).1.2 = none ∧
    (handle_client_auth st (some ("auth", username)) rng).1.1.players =
      st.players := by
  have hadd : lobby.add_player ("player_" ++ toString (st.player_counter + 1))
      ⟨username⟩ rng = ((lobby, false), rng) := by
    simp only [GameRoom.add_player]
    rw [if_pos (by rw [hcap, hfull])]
  have hkeep : st.players.filter
      (fun x => x.1 ≠ ("player_" ++ toString (st.player_counter + 1))) =
      st.players := by
    apply List.filter_eq_self.mpr
    intro x hx
    simp only [decide_eq_true_eq]
    intro hxe
    exact hfresh (List.mem_map.mpr ⟨x, hx, hxe⟩)
  have hmain : handle_client_auth st (some ("auth", username)) rng =
      ((⟨st.players, set_room st.rooms "lobby" lobby,
        st.player_counter + 1⟩, none), rng) := by
    simp only [handle_client_auth, hlob, hadd, huniq]
    rw [if_neg (by simp)]
    rw [if_neg hne]
    simp [hkeep]
    intro a b hab hae
    exact hfresh (List.mem_map.mpr ⟨(a, b), hab, hae⟩)
  exact ⟨rfl, by rw [hmain], by rw [hmain]⟩

/-- C10, witness: the full lobby `lobby50` rejects user "newuser" — no
success reply and an unchanged (here empty) player directory. -/
theorem c10_witness :
    (create_lobby []).1.max_players = 50 ∧
    (handle_client_auth st10 (some ("auth", "newuser")) []).1.2 = none ∧
    (handle_client_auth st10 (some ("auth", "newuser")) []).1.1.players =
      st10.players := by
  have h := c10_theorem st10 lobby50 "newuser" [] (by rfl) rfl (by decide)
    (by decide) (by rfl) (by simp [st10])
  exact ⟨h.1, h.2.1, h.2.2⟩

end SnakeSrv
